import Mathlib

/-!
Shallow embedding of `src/deteccion_tiempo_real.py`, the single source file of
the CapVisor stadium-surveillance script.  The script loads a pretrained YOLO
detector, loops over camera frames, filters the detector output against a
static danger-label table, draws overlays, keeps a deduplicated event log and
an alert counter, handles three keyboard commands, and prints a summary from a
`finally` block on every exit path.

The external pieces (camera, YOLO inference, OpenCV rendering, wall-clock
time) are modelled as data: a frame is represented by the raw detector output
it would produce, timestamps are input strings, and the OpenCV draw calls are
recorded in a `RenderInfo` value.  Everything the script itself computes
(the danger-id scan, the detection filter, the log dedup, counters, keyboard
dispatch, the shutdown summary) is translated directly from the source.
-/

namespace CapVisor

/-- Source lines 12-19: the static mapping from model class name to
human-readable alert string (`OBJETOS_PELIGROSOS`). -/
def OBJETOS_PELIGROSOS : List (String × String) :=
  [("bottle", "🍾 BOTELLA"),
   ("knife", "🔪 CUCHILLO"),
   ("baseball bat", "⚾ BATE"),
   ("scissors", "✂️ TIJERAS"),
   ("fork", "🍴 TENEDOR"),
   ("spoon", "🥄 CUCHARA")]

/-- The keys of the danger mapping (`OBJETOS_PELIGROSOS.keys()` in the source). -/
def dangerKeys : List String := OBJETOS_PELIGROSOS.map Prod.fst

/-- One raw bounding box as reported by the detector: class id, confidence
(modelled as a rational), and the four box coordinates (`box.cls`,
`box.conf`, `box.xyxy[0]`). -/
structure Box where
  cls : Nat
  conf : ℚ
  xyxy : ℚ × ℚ × ℚ × ℚ
deriving DecidableEq, Repr

/-- One result object of the detector output (an element of `resultados`
at source line 89), carrying its list of boxes (`r.boxes`). -/
structure Resultado where
  boxes : List Box
deriving DecidableEq, Repr

/-- Modelled from the spec: the external detector call
`modelo.predict(source=frame, conf=0.3)` (source line 84) is a black box whose
contract is that the confidence threshold is the "minimum detector-reported
probability for a raw box to be considered at all"; so `predict` keeps, in
each result object, exactly the raw boxes whose confidence reaches the
threshold. -/
def predict (resultados : List Resultado) (conf : ℚ) : List Resultado :=
  resultados.map (fun r => ⟨r.boxes.filter (fun b => decide (conf ≤ b.conf))⟩)

/-- Source lines 31-34: scan the model's class-name table and collect the ids
whose name is a key of `OBJETOS_PELIGROSOS` (`clases_peligrosas_ids`).  The
table `names` stands for `modelo.names.items()`. -/
def clases_peligrosas_ids (names : List (Nat × String)) : List Nat :=
  (names.filter (fun p => decide (p.2 ∈ dangerKeys))).map Prod.fst

/-- Source lines 103-108: one record of the per-frame detection list. -/
structure Detection where
  nombre : String
  alerta : String
  confianza : ℚ
  bbox : ℚ × ℚ × ℚ × ℚ
deriving DecidableEq, Repr

/-- Source lines 94-108, body of the box loop: a box yields a `Detection`
exactly when its class id is in `clases_peligrosas_ids`; the class name is
looked up in the model table and the alert text in `OBJETOS_PELIGROSOS`.
The `none` fall-through of the alert lookup corresponds to the `KeyError`
Python would raise; it is unreachable when `ids` comes from
`clases_peligrosas_ids` over the same table. -/
def detectaEnBox (names : List (Nat × String)) (ids : List Nat) (box : Box) :
    Option Detection :=
  if box.cls ∈ ids then
    let nombre := (names.lookup box.cls).getD ""
    match OBJETOS_PELIGROSOS.lookup nombre with
    | some alerta => some ⟨nombre, alerta, box.conf, box.xyxy⟩
    | none => none
  else none

/-- Source lines 87-108: the nested loop `for r in resultados: for box in
r.boxes:` that appends the qualifying detections, in order. -/
def objetos_detectados (names : List (Nat × String)) (ids : List Nat)
    (resultados : List Resultado) : List Detection :=
  (resultados.flatMap Resultado.boxes).filterMap (detectaEnBox names ids)

/-- The annotated frame produced by the model's own renderer `r.plot()`
(source line 91); the rendering itself is external, so the value just records
which result object was plotted. -/
structure FrameAnotado where
  plotted : Resultado
deriving DecidableEq, Repr

/-- The external `r.plot()` call. -/
def plot (r : Resultado) : FrameAnotado := ⟨r⟩

/-- Source lines 89-91: inside `for r in resultados`, the variable
`frame_anotado` is reassigned to `r.plot()` for each result object; when the
result list is empty it keeps whatever value it had from an earlier
iteration, or stays undefined (`none`) on the first frame. -/
def actualizaFrameAnotado (prev : Option FrameAnotado)
    (resultados : List Resultado) : Option FrameAnotado :=
  resultados.foldl (fun _ r => some (plot r)) prev

/-- The confidence threshold of the `modelo.predict` call (source line 84). -/
def umbralConf : ℚ := mkRat 3 10

/-- Source format specifier `:.0%`: a confidence in [0,1] rendered as a
whole-number percentage with a trailing percent sign — the value `q * 100`
rounded to the nearest integer, written here on the numerator / denominator
pair so that it evaluates by kernel reduction; `formatPct_eq_round` proves it
equal to `round (q * 100)`. -/
def formatPct (q : ℚ) : String :=
  toString ⌊Rat.divInt (200 * q.num + (q.den : ℤ)) (2 * (q.den : ℤ))⌋ ++ "%"

/-- Source line 135: the formatted log line
`f"[\x7btimestamp\x7d] \x7bobj['alerta']\x7d - Confianza: \x7b...:.0%\x7d"`. -/
def formatoEvento (timestamp : String) (d : Detection) : String :=
  "[" ++ timestamp ++ "] " ++ d.alerta ++ " - Confianza: " ++ formatPct d.confianza

/-- Source line 125: the text of one on-screen chip,
`f"\x7bobj['alerta']\x7d - \x7bobj['confianza']:.0%\x7d"`. -/
def textoChip (d : Detection) : String :=
  d.alerta ++ " - " ++ formatPct d.confianza

/-- Python's trailing slice `l[-n:]`: the last `n` entries (all of them when
the list is shorter). -/
def lastN (n : Nat) (l : List String) : List String := l.drop (l.length - n)

/-- Source lines 136-138 for a single event line: append it to the log unless
an identical string already appears among the last 5 recorded entries
(`if evento not in [e for e in log_eventos[-5:]]`). -/
def registraEvento (log : List String) (evento : String) : List String :=
  if evento ∈ lastN 5 log then log else log ++ [evento]

/-- The same step carrying also the console lines printed (`🚨 ...` is printed
exactly when the event is appended). -/
def registraEventoCon (p : List String × List String) (evento : String) :
    List String × List String :=
  if evento ∈ lastN 5 p.1 then p
  else (p.1 ++ [evento], p.2 ++ ["🚨 " ++ evento])

/-- Source lines 133-138 iterated over the frame's detections, in order. -/
def registraEventosCon (log : List String) (eventos : List String) :
    List String × List String :=
  eventos.foldl registraEventoCon (log, [])

/-- The OpenCV draw calls of one frame (source lines 110-160), recorded as
data: whether the red banner rectangle/text was drawn and with which text,
the per-detection chips with their text and vertical position, the status
line and its colour, and the running-total line. -/
structure RenderInfo where
  bannerDrawn : Bool
  bannerText : Option String
  chips : List (String × Nat)
  estado : String
  colorEstado : Nat × Nat × Nat
  totalText : String
deriving DecidableEq, Repr

/-- Source lines 110-160: banner and chips exist only when the detection list
is nonempty; chips start at `y_pos = 120` and step by 50; the status line is
the red alert variant when detections exist, the green safe-zone variant
otherwise; the totals line shows the alert counter after this frame's
increment. -/
def renderiza (dets : List Detection) (alertasTras : Nat) : RenderInfo :=
  { bannerDrawn := !dets.isEmpty
  , bannerText :=
      if dets.isEmpty then none
      else some ("ALERTA: " ++ toString dets.length ++
                 " OBJETO(S) PELIGROSO(S) DETECTADO(S)")
  , chips := dets.enum.map (fun p => (textoChip p.2, 120 + 50 * p.1))
  , estado := if dets.isEmpty then "🟢 ZONA SEGURA" else "🔴 ALERTA ACTIVA"
  , colorEstado := if dets.isEmpty then (0, 255, 0) else (0, 0, 255)
  , totalText := "Total alertas: " ++ toString alertasTras }

/-- The mutable session variables of source lines 62-66 that the claims
concern, plus the cross-iteration `frame_anotado` variable.  The wall-clock
`fps` estimate is not modelled (it depends on real time and no claim touches
it); `frame_count` keeps its count-to-30-and-reset behaviour. -/
structure SessionState where
  frame_count : Nat
  alertas_totales : Nat
  log_eventos : List String
  frame_anotado : Option FrameAnotado
deriving DecidableEq, Repr

/-- Source lines 62-66: counters start at zero, the log empty, and
`frame_anotado` not yet assigned. -/
def estadoInicial : SessionState :=
  { frame_count := 0, alertas_totales := 0, log_eventos := [], frame_anotado := none }

/-- One loop iteration's external inputs: whether `cap.read()` succeeded, the
raw detector output for the frame (before the confidence threshold), the two
timestamp strings taken from the clock (`%H:%M:%S` for log lines,
`%Y%m%d_%H%M%S` for screenshot filenames), and the key returned by
`cv2.waitKey(1) & 0xFF`. -/
structure FrameInput where
  captureOk : Bool
  resultados : List Resultado
  timestamp : String
  timestampArchivo : String
  key : Nat
deriving DecidableEq, Repr

/-- Source lines 76-163: the frame-processing part of one iteration (before
keyboard dispatch).  `Except.error` models the `NameError` crash that line
141 (`frame_anotado.shape`) would raise when no result object was ever
produced, so no annotated frame is defined; the error carries the state as
updated so far.  Otherwise returns the updated state, the recorded draw
calls, and the console lines printed. -/
def procesaFrame (names : List (Nat × String)) (ids : List Nat)
    (st : SessionState) (input : FrameInput) :
    Except SessionState (SessionState × RenderInfo × List String) :=
  let frameCount2 := if 30 ≤ st.frame_count + 1 then 0 else st.frame_count + 1
  let resultados := predict input.resultados umbralConf
  let frameAnotado2 := actualizaFrameAnotado st.frame_anotado resultados
  let dets := objetos_detectados names ids resultados
  match frameAnotado2 with
  | none => Except.error { st with frame_count := frameCount2 }
  | some fa =>
    let alertas2 :=
      if dets.isEmpty then st.alertas_totales else st.alertas_totales + dets.length
    let eventos := dets.map (formatoEvento input.timestamp)
    let logCon :=
      if dets.isEmpty then (st.log_eventos, ([] : List String))
      else registraEventosCon st.log_eventos eventos
    Except.ok
      ({ frame_count := frameCount2, alertas_totales := alertas2,
         log_eventos := logCon.1, frame_anotado := some fa },
       renderiza dets alertas2, logCon.2)

/-- Source lines 166-180: keyboard dispatch.  `q` (113) requests quit, `s`
(115) saves a screenshot, `r` (114) resets the counter and the whole log.
Returns the state after the command, whether the loop should break, and the
console lines printed. -/
def manejaTecla (st : SessionState) (key : Nat) (tsArchivo : String) :
    SessionState × Bool × List String :=
  if key == 113 then
    (st, true, ["🛑 Deteniendo sistema de detección..."])
  else if key == 115 then
    (st, false, ["📸 Captura guardada: captura_alerta_" ++ tsArchivo ++ ".jpg"])
  else if key == 114 then
    ({ st with alertas_totales := 0, log_eventos := [] }, false,
     ["🔄 Contador de alertas reseteado"])
  else
    (st, false, [])

/-- Outcome of one full loop iteration. -/
inductive IterResult where
  | stopCapture (console : List String)
  | stopQuit (st : SessionState) (render : RenderInfo) (console : List String)
  | crash (st : SessionState)
  | cont (st : SessionState) (render : RenderInfo) (console : List String)
deriving DecidableEq, Repr

/-- Source lines 70-180: one iteration of the `while True` loop.  A failed
`cap.read()` prints the error and breaks (lines 72-74); otherwise the frame
is processed and the keyboard handled. -/
def procesaIteracion (names : List (Nat × String)) (ids : List Nat)
    (st : SessionState) (input : FrameInput) : IterResult :=
  if input.captureOk then
    match procesaFrame names ids st input with
    | Except.error stc => IterResult.crash stc
    | Except.ok (st1, render, console) =>
      let tk := manejaTecla st1 input.key input.timestampArchivo
      if tk.2.1 then IterResult.stopQuit tk.1 render (console ++ tk.2.2)
      else IterResult.cont tk.1 render (console ++ tk.2.2)
  else
    IterResult.stopCapture ["❌ Error al capturar frame"]

/-- How a session ends: the quit key, a failed capture, an uncaught crash, or
the external `KeyboardInterrupt` (modelled as the input trace running out). -/
inductive ExitReason where
  | quit
  | captureFail
  | crashed
  | interrupted
deriving DecidableEq, Repr

/-- Source lines 68-183: run the main loop over an input trace; the trace
running out stands for the external interrupt.  Returns the final state, the
exit reason, and the console lines printed inside the loop. -/
def runLoop (names : List (Nat × String)) (ids : List Nat) :
    SessionState → List FrameInput → SessionState × ExitReason × List String
  | st, [] => (st, ExitReason.interrupted, [])
  | st, input :: rest =>
    match procesaIteracion names ids st input with
    | IterResult.stopCapture console => (st, ExitReason.captureFail, console)
    | IterResult.stopQuit st2 _ console => (st2, ExitReason.quit, console)
    | IterResult.crash st2 => (st2, ExitReason.crashed, [])
    | IterResult.cont st2 _ console =>
      let resto := runLoop names ids st2 rest
      (resto.1, resto.2.1, console ++ resto.2.2)

/-- Source lines 190-200: the informative lines of the final summary, in
print order — total alerts, then the log length (printed under the label
"Eventos únicos registrados"), then (only when the log is nonempty) the
last 10 log entries (`log_eventos[-10:]`). -/
def lineasResumen (st : SessionState) : List String :=
  ["Total de alertas generadas: " ++ toString st.alertas_totales,
   "Eventos únicos registrados: " ++ toString st.log_eventos.length] ++
  (if st.log_eventos.isEmpty then [] else lastN 10 st.log_eventos)

/-- Effects of the `finally` block (source lines 185-203): the capture is
released, the display windows destroyed, and the summary printed. -/
structure Shutdown where
  capReleased : Bool
  ventanasCerradas : Bool
  resumen : List String
deriving DecidableEq, Repr

/-- Source lines 185-203: the guaranteed-run `finally` block applied to the
state the loop ended in. -/
def cierre (st : SessionState) : Shutdown :=
  { capReleased := true, ventanasCerradas := true, resumen := lineasResumen st }

/-- A whole session: loop outcome plus the unconditional shutdown. -/
structure SalidaSesion where
  stFinal : SessionState
  razon : ExitReason
  consola : List String
  cierreFinal : Shutdown
deriving DecidableEq, Repr

/-- Source lines 68-203: run the loop from a starting state, then the
`finally` block — the shutdown runs on every exit path, quit, capture
failure, crash or interrupt alike. -/
def sesion (names : List (Nat × String)) (ids : List Nat)
    (st0 : SessionState) (inputs : List FrameInput) : SalidaSesion :=
  let r := runLoop names ids st0 inputs
  { stFinal := r.1, razon := r.2.1, consola := r.2.2, cierreFinal := cierre r.1 }

/-- Stated from the spec's words, for comparison with what the code prints:
the number of distinct entries of the event log ("distinct event count"). -/
def conteoDistinto (l : List String) : Nat := l.dedup.length

/-- The session state an `IterResult` leaves behind (`st` is the state before
the iteration, kept unchanged when the capture fails). -/
def estadoDe (st : SessionState) : IterResult → SessionState
  | IterResult.stopCapture _ => st
  | IterResult.stopQuit st2 _ _ => st2
  | IterResult.crash st2 => st2
  | IterResult.cont st2 _ _ => st2

/-- A test frame holding a single bottle box of confidence 1/2, stamped with
the given time. -/
def frameBotella (ts : String) : FrameInput :=
  ⟨true, [⟨[⟨39, mkRat 1 2, (0, 0, 0, 0)⟩]⟩], ts, "x", 0⟩

/-- Seven test frames whose first and last share a timestamp: the identical
log line of the last frame falls outside the 5-entry dedup window and is
recorded a second time, so the log holds 7 entries but only 6 distinct
strings. -/
def entradasDuplicado : List FrameInput :=
  [frameBotella "00:00:01", frameBotella "00:00:02", frameBotella "00:00:03",
   frameBotella "00:00:04", frameBotella "00:00:05", frameBotella "00:00:06",
   frameBotella "00:00:01"]

/-- Test box: a knife at confidence 4/5. -/
def boxCuchillo : Box := ⟨43, mkRat 4 5, (0, 0, 0, 0)⟩

/-- Test box: a bottle at confidence 2/5. -/
def boxBotella : Box := ⟨39, mkRat 2 5, (0, 0, 0, 0)⟩

/-- The Detection produced for `boxCuchillo`. -/
def detCuchillo : Detection := ⟨"knife", "🔪 CUCHILLO", mkRat 4 5, (0, 0, 0, 0)⟩

/-- The Detection produced for `boxBotella`. -/
def detBotella : Detection := ⟨"bottle", "🍾 BOTELLA", mkRat 2 5, (0, 0, 0, 0)⟩

/-- A test class table holding the bottle and knife ids. -/
def nombresDos : List (Nat × String) := [(39, "bottle"), (43, "knife")]

/-- A test frame holding the knife and bottle boxes. -/
def entradaDos : FrameInput := ⟨true, [⟨[boxCuchillo, boxBotella]⟩], "12:00:00", "x", 0⟩

/-- The state after processing `entradaDos` from the initial state. -/
def estadoDos : SessionState :=
  { frame_count := 1, alertas_totales := 2,
    log_eventos := ["[12:00:00] 🔪 CUCHILLO - Confianza: 80%",
                    "[12:00:00] 🍾 BOTELLA - Confianza: 40%"],
    frame_anotado := some (plot ⟨[boxCuchillo, boxBotella]⟩) }

/-! ## Helper lemmas -/

/-- The percentage printed by `formatPct` is the rounding of `q * 100`,
matching the source's `:.0%` format up to the half-way tie rule. -/
theorem formatPct_eq_round (q : ℚ) :
    formatPct q = toString (round (q * 100)) ++ "%" := by
  unfold formatPct
  rw [round_eq, Rat.divInt_eq_div]
  congr 3
  have hden : ((q.den : ℚ)) ≠ 0 := by exact_mod_cast q.den_nz
  conv_rhs => rw [← Rat.num_div_den q]
  push_cast
  field_simp
  ring

/-- A successful association-list lookup means the key occurs among the
first components. -/
theorem mem_fst_of_lookup_eq_some {l : List (String × String)} {k v : String}
    (h : l.lookup k = some v) : k ∈ l.map Prod.fst := by
  rcases List.lookup_eq_some_iff.1 h with ⟨l₁, l₂, rfl, -⟩
  simp

/-- Inversion of the box filter: a produced `Detection` came from a box whose
class id is in the danger-id list, its class name is a key of the danger
mapping, and it carries the box's confidence unchanged. -/
theorem detectaEnBox_eq_some {names : List (Nat × String)} {ids : List Nat}
    {box : Box} {d : Detection} (h : detectaEnBox names ids box = some d) :
    box.cls ∈ ids ∧ d.nombre ∈ dangerKeys ∧ d.confianza = box.conf := by
  unfold detectaEnBox at h
  split at h
  · rename_i hin
    dsimp only [] at h
    split at h
    · rename_i alerta hlook
      injection h with h
      subst h
      exact ⟨hin, mem_fst_of_lookup_eq_some hlook, rfl⟩
    · cases h
  · cases h

/-- Membership in the startup danger-id scan of source lines 31-34. -/
theorem mem_clases_peligrosas_ids (names : List (Nat × String)) (i : Nat) :
    i ∈ clases_peligrosas_ids names ↔ ∃ n, (i, n) ∈ names ∧ n ∈ dangerKeys := by
  unfold clases_peligrosas_ids
  constructor
  · intro h
    rcases List.mem_map.1 h with ⟨⟨a, b⟩, hp, hfst⟩
    rcases List.mem_filter.1 hp with ⟨hpn, hdec⟩
    subst hfst
    exact ⟨b, hpn, of_decide_eq_true hdec⟩
  · rintro ⟨n, hmem, hkey⟩
    exact List.mem_map.2 ⟨(i, n), List.mem_filter.2 ⟨hmem, decide_eq_true hkey⟩, rfl⟩

/-- In a table with no duplicate first components (a Python dict), a key
determines its value. -/
theorem snd_eq_of_nodup_fst {l : List (Nat × String)}
    (h : (l.map Prod.fst).Nodup) {a : Nat} {b c : String}
    (hb : (a, b) ∈ l) (hc : (a, c) ∈ l) : b = c := by
  induction l with
  | nil => cases hb
  | cons p t ih =>
    rw [List.map_cons, List.nodup_cons] at h
    rcases List.mem_cons.1 hb with hb1 | hb1 <;>
      rcases List.mem_cons.1 hc with hc1 | hc1
    · injection hb1.trans hc1.symm
    · exfalso
      apply h.1
      rw [← hb1]
      exact List.mem_map.2 ⟨(a, c), hc1, rfl⟩
    · exfalso
      apply h.1
      rw [← hc1]
      exact List.mem_map.2 ⟨(a, b), hb1, rfl⟩
    · exact ih h.2 hb1 hc1

/-- The summary lines always equal the two counter lines followed by the last
10 log entries (the source's guard on an empty log changes nothing, since the
trailing slice of an empty log is empty). -/
theorem lineasResumen_eq (st : SessionState) :
    lineasResumen st =
      ["Total de alertas generadas: " ++ toString st.alertas_totales,
       "Eventos únicos registrados: " ++ toString st.log_eventos.length] ++
      lastN 10 st.log_eventos := by
  unfold lineasResumen
  cases h : st.log_eventos with
  | nil => simp [h, lastN]
  | cons a t => simp [h]

/-- The trailing window has exactly `min n (length l)` entries. -/
theorem lastN_length (n : Nat) (l : List String) :
    (lastN n l).length = min n l.length := by
  unfold lastN
  rw [List.length_drop]
  omega

/-- The trailing window is a suffix of the log: its entries appear in the
original order. -/
theorem lastN_suffix (n : Nat) (l : List String) : lastN n l <:+ l :=
  List.drop_suffix _ _

/-- The log component of the printing step agrees with the plain log step. -/
theorem registraEventoCon_fst (p : List String × List String) (e : String) :
    (registraEventoCon p e).1 = registraEvento p.1 e := by
  by_cases h : e ∈ lastN 5 p.1 <;> simp [registraEventoCon, registraEvento, h]

/-- Folding the log step over a list of events grows the log by at most one
entry per event. -/
theorem foldl_registraEventoCon_length (es : List String)
    (p : List String × List String) :
    (es.foldl registraEventoCon p).1.length ≤ p.1.length + es.length := by
  induction es generalizing p with
  | nil => simp
  | cons e t ih =>
    have h1 : (registraEventoCon p e).1.length ≤ p.1.length + 1 := by
      by_cases h : e ∈ lastN 5 p.1 <;> simp [registraEventoCon, h]
    calc (List.foldl registraEventoCon (registraEventoCon p e) t).1.length
        ≤ (registraEventoCon p e).1.length + t.length := ih _
      _ ≤ p.1.length + 1 + t.length := by omega
      _ = p.1.length + (e :: t).length := by simp; omega

/-- The batch log update grows the log by at most the number of events. -/
theorem registraEventosCon_length (log : List String) (es : List String) :
    (registraEventosCon log es).1.length ≤ log.length + es.length :=
  foldl_registraEventoCon_length es (log, [])

/-- A crashed frame leaves the alert counter and the log untouched. -/
theorem procesaFrame_error_estado (names : List (Nat × String)) (ids : List Nat)
    (st : SessionState) (input : FrameInput) (stc : SessionState)
    (h : procesaFrame names ids st input = Except.error stc) :
    stc.alertas_totales = st.alertas_totales ∧ stc.log_eventos = st.log_eventos := by
  simp only [procesaFrame] at h
  split at h
  · injection h with h
    subst h
    exact ⟨rfl, rfl⟩
  · cases h

/-- Frame processing preserves the counter-dominates-log invariant. -/
theorem procesaFrame_inv (names : List (Nat × String)) (ids : List Nat)
    (st : SessionState) (input : FrameInput)
    (st1 : SessionState) (r : RenderInfo) (c : List String)
    (hok : procesaFrame names ids st input = Except.ok (st1, r, c))
    (hinv : st.log_eventos.length ≤ st.alertas_totales) :
    st1.log_eventos.length ≤ st1.alertas_totales := by
  simp only [procesaFrame] at hok
  split at hok
  · cases hok
  · rw [Except.ok.injEq, Prod.mk.injEq, Prod.mk.injEq] at hok
    obtain ⟨h1, -, -⟩ := hok
    subst h1
    by_cases hd :
        (objetos_detectados names ids (predict input.resultados umbralConf)).isEmpty
    · simpa [hd] using hinv
    · simp only [hd, if_neg, Bool.false_eq_true, ite_false]
      have hlen := registraEventosCon_length st.log_eventos
        ((objetos_detectados names ids (predict input.resultados umbralConf)).map
          (formatoEvento input.timestamp))
      rw [List.length_map] at hlen
      omega

/-- Keyboard dispatch preserves the counter-dominates-log invariant (reset
zeroes both together). -/
theorem manejaTecla_inv (st : SessionState) (key : Nat) (ts : String)
    (hinv : st.log_eventos.length ≤ st.alertas_totales) :
    (manejaTecla st key ts).1.log_eventos.length ≤
      (manejaTecla st key ts).1.alertas_totales := by
  unfold manejaTecla
  split
  · exact hinv
  · split
    · exact hinv
    · split
      · simp
      · exact hinv

/-- One full loop iteration preserves the counter-dominates-log invariant,
whatever its outcome. -/
theorem procesaIteracion_inv (names : List (Nat × String)) (ids : List Nat)
    (st : SessionState) (input : FrameInput)
    (hinv : st.log_eventos.length ≤ st.alertas_totales) :
    (estadoDe st (procesaIteracion names ids st input)).log_eventos.length ≤
      (estadoDe st (procesaIteracion names ids st input)).alertas_totales := by
  unfold procesaIteracion
  split
  · cases hok : procesaFrame names ids st input with
    | error stc =>
      obtain ⟨h1, h2⟩ := procesaFrame_error_estado names ids st input stc hok
      simpa [estadoDe, h1, h2] using hinv
    | ok out =>
      rcases out with ⟨st1, r, c⟩
      have hl1 := procesaFrame_inv names ids st input st1 r c hok hinv
      have hl2 := manejaTecla_inv st1 input.key input.timestampArchivo hl1
      simp only []
      split
      · simpa [estadoDe] using hl2
      · simpa [estadoDe] using hl2
  · simpa [estadoDe] using hinv

/-- Running the loop preserves the counter-dominates-log invariant. -/
theorem runLoop_inv (names : List (Nat × String)) (ids : List Nat)
    (inputs : List FrameInput) (st : SessionState)
    (hinv : st.log_eventos.length ≤ st.alertas_totales) :
    (runLoop names ids st inputs).1.log_eventos.length ≤
      (runLoop names ids st inputs).1.alertas_totales := by
  induction inputs generalizing st with
  | nil => simpa [runLoop] using hinv
  | cons input rest ih =>
    have hstep := procesaIteracion_inv names ids st input hinv
    simp only [runLoop]
    cases hit : procesaIteracion names ids st input with
    | stopCapture console =>
      simpa using hinv
    | stopQuit st2 render console =>
      rw [hit] at hstep
      simpa [estadoDe] using hstep
    | crash st2 =>
      rw [hit] at hstep
      simpa [estadoDe] using hstep
    | cont st2 render console =>
      rw [hit] at hstep
      exact ih st2 (by simpa [estadoDe] using hstep)

/-! ## Claims -/

/-- C1: every Detection record appended to the per-frame detection list has a
class name that is a key of the static danger-label mapping and a confidence
at least the configured detection threshold 0.3 (the threshold being enforced
by the detector call's contract, modelled in `predict`). -/
theorem C1_invariante_detecciones (names : List (Nat × String)) (ids : List Nat)
    (brutos : List Resultado) (d : Detection)
    (h : d ∈ objetos_detectados names ids (predict brutos umbralConf)) :
    d.nombre ∈ dangerKeys ∧ umbralConf ≤ d.confianza := by
  unfold objetos_detectados at h
  rcases List.mem_filterMap.1 h with ⟨box, hbox, hdet⟩
  rcases List.mem_flatMap.1 hbox with ⟨r, hr, hb⟩
  rcases detectaEnBox_eq_some hdet with ⟨-, hkey, hconf⟩
  refine ⟨hkey, ?_⟩
  rw [hconf]
  unfold predict at hr
  rcases List.mem_map.1 hr with ⟨r0, -, rfl⟩
  exact of_decide_eq_true (List.mem_filter.1 hb).2

/-- Witness for C1 at a concrete frame: one bottle box of confidence 1/2. -/
theorem C1_invariante_detecciones_witness :
    (⟨"bottle", "🍾 BOTELLA", mkRat 1 2, (0, 0, 0, 0)⟩ : Detection) ∈
        objetos_detectados [(39, "bottle")] [39]
          (predict [⟨[⟨39, mkRat 1 2, (0, 0, 0, 0)⟩]⟩] umbralConf) ∧
    ((⟨"bottle", "🍾 BOTELLA", mkRat 1 2, (0, 0, 0, 0)⟩ : Detection).nombre ∈ dangerKeys ∧
      umbralConf ≤ (⟨"bottle", "🍾 BOTELLA", mkRat 1 2, (0, 0, 0, 0)⟩ : Detection).confianza) :=
  ⟨by decide,
    C1_invariante_detecciones [(39, "bottle")] [39]
      [⟨[⟨39, mkRat 1 2, (0, 0, 0, 0)⟩]⟩]
      ⟨"bottle", "🍾 BOTELLA", mkRat 1 2, (0, 0, 0, 0)⟩ (by decide)⟩

/-- C2: for every entry of the model's class-name table (a dict, so ids are
unique), the id is in the danger-id set computed at startup iff the name is a
key of the static danger-label mapping. -/
theorem C2_ids_peligrosos_iff (names : List (Nat × String))
    (hnodup : (names.map Prod.fst).Nodup) (idx : Nat) (nombre : String)
    (hmem : (idx, nombre) ∈ names) :
    idx ∈ clases_peligrosas_ids names ↔ nombre ∈ dangerKeys := by
  rw [mem_clases_peligrosas_ids]
  constructor
  · rintro ⟨n, hn, hk⟩
    exact (snd_eq_of_nodup_fst hnodup hn hmem) ▸ hk
  · intro hk
    exact ⟨nombre, hmem, hk⟩

/-- Witness for C2 on a small concrete class table. -/
theorem C2_ids_peligrosos_iff_witness :
    ((([(0, "person"), (39, "bottle"), (43, "knife")] : List (Nat × String)).map
        Prod.fst).Nodup ∧
      (39, "bottle") ∈ ([(0, "person"), (39, "bottle"), (43, "knife")] : List (Nat × String))) ∧
    (39 ∈ clases_peligrosas_ids [(0, "person"), (39, "bottle"), (43, "knife")] ↔
      "bottle" ∈ dangerKeys) :=
  ⟨⟨by decide, by decide⟩,
    C2_ids_peligrosos_iff _ (by decide) 39 "bottle" (by decide)⟩

/-- C3: a formatted event line is appended to the event log iff an identical
string does not already appear among the last 5 recorded entries; when it
does appear there the log is left unchanged — so a duplicate occurring more
than 5 entries after its earlier occurrence is recorded again. -/
theorem C3_dedup_ventana (log : List String) (evento : String) :
    (registraEvento log evento = log ++ [evento] ↔ evento ∉ lastN 5 log) ∧
    (registraEvento log evento = log ↔ evento ∈ lastN 5 log) := by
  unfold registraEvento
  by_cases h : evento ∈ lastN 5 log
  · rw [if_pos h]
    constructor
    · constructor
      · intro heq
        have := congrArg List.length heq
        simp at this
      · intro hn
        exact absurd h hn
    · exact ⟨fun _ => h, fun _ => rfl⟩
  · rw [if_neg h]
    constructor
    · exact ⟨fun _ => h, fun _ => rfl⟩
    · constructor
      · intro heq
        have := congrArg List.length heq
        simp at this
      · intro hm
        exact absurd hm h

/-- C6 counterexample: on the first frame, if the model's result sequence is
empty, no annotated frame is defined and the iteration fails (the modelled
`NameError`) before the overlay and display steps — refuting the claim that a
defined annotated frame exists even with zero result objects. -/
theorem C6_counterexample :
    procesaFrame [] [] estadoInicial ⟨true, [], "00:00:00", "t", 0⟩ =
      Except.error { frame_count := 1, alertas_totales := 0,
                     log_eventos := [], frame_anotado := none } ∧
    actualizaFrameAnotado estadoInicial.frame_anotado
        (predict ([] : List Resultado) umbralConf) = none :=
  ⟨rfl, rfl⟩

/-- C6 (amended): whenever the result sequence contains at least one result
object — in particular when every result has zero boxes — a defined annotated
frame exists before the overlay and display steps: the plot of the last
result object. -/
theorem C6_frame_anotado_definido (prev : Option FrameAnotado)
    (rs : List Resultado) (r : Resultado) (h : rs.getLast? = some r) :
    actualizaFrameAnotado prev rs = some (plot r) := by
  induction rs generalizing prev with
  | nil => cases h
  | cons x t ih =>
    cases t with
    | nil =>
      rw [List.getLast?_singleton] at h
      injection h with h
      subst h
      rfl
    | cons y t2 =>
      rw [List.getLast?_cons_cons] at h
      exact ih (some (plot x)) h

/-- Witness for the amended C6: one result object with zero boxes on the
first frame still yields a defined annotated frame. -/
theorem C6_frame_anotado_definido_witness :
    (([⟨[]⟩] : List Resultado).getLast? = some ⟨[]⟩) ∧
    actualizaFrameAnotado none [⟨[]⟩] = some (plot ⟨[]⟩) :=
  ⟨rfl, C6_frame_anotado_definido none [⟨[]⟩] ⟨[]⟩ rfl⟩

/-- C7: a frame whose qualifying-detection list is empty draws the green
safe-zone status line, does not draw the red alert banner, and leaves the
cumulative alert counter unchanged by that frame. -/
theorem C7_zona_segura (names : List (Nat × String)) (ids : List Nat)
    (st : SessionState) (input : FrameInput)
    (st1 : SessionState) (r : RenderInfo) (c : List String)
    (hok : procesaFrame names ids st input = Except.ok (st1, r, c))
    (hdets : objetos_detectados names ids (predict input.resultados umbralConf) = []) :
    r.estado = "🟢 ZONA SEGURA" ∧ r.colorEstado = (0, 255, 0) ∧
    r.bannerDrawn = false ∧ r.bannerText = none ∧
    st1.alertas_totales = st.alertas_totales := by
  simp only [procesaFrame, hdets] at hok
  split at hok
  · cases hok
  · rw [Except.ok.injEq, Prod.mk.injEq, Prod.mk.injEq] at hok
    obtain ⟨h1, h2, h3⟩ := hok
    subst h1
    subst h2
    simp [renderiza]

/-- Witness for C7: a frame containing only a non-dangerous box (class 0)
above threshold. -/
theorem C7_zona_segura_witness :
    (procesaFrame [(39, "bottle")] [39] estadoInicial
        ⟨true, [⟨[⟨0, mkRat 1 2, (0, 0, 0, 0)⟩]⟩], "12:00:00", "x", 0⟩ =
      Except.ok
        ({ frame_count := 1, alertas_totales := 0, log_eventos := [],
           frame_anotado := some (plot ⟨[⟨0, mkRat 1 2, (0, 0, 0, 0)⟩]⟩) },
         renderiza [] 0, []) ∧
      objetos_detectados [(39, "bottle")] [39]
        (predict [⟨[⟨0, mkRat 1 2, (0, 0, 0, 0)⟩]⟩] umbralConf) = []) ∧
    ((renderiza [] 0).estado = "🟢 ZONA SEGURA" ∧
      (renderiza [] 0).colorEstado = (0, 255, 0) ∧
      (renderiza [] 0).bannerDrawn = false ∧
      (renderiza [] 0).bannerText = none ∧
      ({ frame_count := 1, alertas_totales := 0, log_eventos := [],
         frame_anotado := some (plot ⟨[⟨0, mkRat 1 2, (0, 0, 0, 0)⟩]⟩) }
          : SessionState).alertas_totales = estadoInicial.alertas_totales) :=
  ⟨⟨rfl, by decide⟩,
    C7_zona_segura [(39, "bottle")] [39] estadoInicial
      ⟨true, [⟨[⟨0, mkRat 1 2, (0, 0, 0, 0)⟩]⟩], "12:00:00", "x", 0⟩
      { frame_count := 1, alertas_totales := 0, log_eventos := [],
        frame_anotado := some (plot ⟨[⟨0, mkRat 1 2, (0, 0, 0, 0)⟩]⟩) }
      (renderiza [] 0) [] rfl (by decide)⟩

/-- C9: a failed frame capture mid-session prints the error line, breaks out
of the loop without retrying (the remaining inputs are never processed), and
proceeds to the shutdown summary with the state unchanged by that frame. -/
theorem C9_fallo_captura (names : List (Nat × String)) (ids : List Nat)
    (st : SessionState) (input : FrameInput) (rest : List FrameInput)
    (h : input.captureOk = false) :
    sesion names ids st (input :: rest) =
      { stFinal := st, razon := ExitReason.captureFail,
        consola := ["❌ Error al capturar frame"], cierreFinal := cierre st } := by
  simp [sesion, runLoop, procesaIteracion, h]

/-- Witness for C9: a single failed capture right after start. -/
theorem C9_fallo_captura_witness :
    ((⟨false, [], "", "", 0⟩ : FrameInput).captureOk = false) ∧
    sesion [] [] estadoInicial [⟨false, [], "", "", 0⟩] =
      { stFinal := estadoInicial, razon := ExitReason.captureFail,
        consola := ["❌ Error al capturar frame"], cierreFinal := cierre estadoInicial } :=
  ⟨rfl, C9_fallo_captura [] [] estadoInicial ⟨false, [], "", "", 0⟩ [] rfl⟩

/-- C4: after the reset command (key `r`, code 114) is processed, the
cumulative alert counter is 0 and the full event log is empty, whatever the
prior state was. -/
theorem C4_reset (st : SessionState) (tsArchivo : String) :
    (manejaTecla st 114 tsArchivo).1.alertas_totales = 0 ∧
    (manejaTecla st 114 tsArchivo).1.log_eventos = [] :=
  ⟨rfl, rfl⟩

/-- C5 counterexample: after running `entradasDuplicado`, the shutdown line
labelled "Eventos únicos registrados" prints the log length 7, while the
distinct event count of the log is 6 — the code prints the full log length,
not the distinct event count. -/
theorem C5_counterexample :
    (sesion [(39, "bottle")] [39] estadoInicial entradasDuplicado).cierreFinal.resumen.get? 1 =
      some ("Eventos únicos registrados: " ++
        toString
          (sesion [(39, "bottle")] [39] estadoInicial
              entradasDuplicado).stFinal.log_eventos.length) ∧
    (sesion [(39, "bottle")] [39] estadoInicial
        entradasDuplicado).stFinal.log_eventos.length = 7 ∧
    conteoDistinto
        (sesion [(39, "bottle")] [39] estadoInicial
            entradasDuplicado).stFinal.log_eventos = 6 := by
  refine ⟨?_, ?_, ?_⟩ <;> decide

/-- C5 (amended): on every exit path — the input trace is arbitrary, so quit,
capture failure, crash and interrupt are all covered — the shutdown releases
the video source, closes the display surfaces, and prints the total alert
count, the event-log length (labelled unique events; it equals the distinct
event count only when the windowed dedup left no duplicates), and then the
last min(10, len(log)) entries of the full event log, a suffix of it and so
in original order, in that order. -/
theorem C5_cierre_resumen (names : List (Nat × String)) (ids : List Nat)
    (st0 : SessionState) (inputs : List FrameInput) :
    (sesion names ids st0 inputs).cierreFinal.capReleased = true ∧
    (sesion names ids st0 inputs).cierreFinal.ventanasCerradas = true ∧
    (sesion names ids st0 inputs).cierreFinal.resumen =
      ["Total de alertas generadas: " ++
         toString (sesion names ids st0 inputs).stFinal.alertas_totales,
       "Eventos únicos registrados: " ++
         toString (sesion names ids st0 inputs).stFinal.log_eventos.length] ++
      lastN 10 (sesion names ids st0 inputs).stFinal.log_eventos ∧
    (lastN 10 (sesion names ids st0 inputs).stFinal.log_eventos).length =
      min 10 (sesion names ids st0 inputs).stFinal.log_eventos.length ∧
    lastN 10 (sesion names ids st0 inputs).stFinal.log_eventos <:+
      (sesion names ids st0 inputs).stFinal.log_eventos :=
  ⟨rfl, rfl, lineasResumen_eq (sesion names ids st0 inputs).stFinal,
    lastN_length 10 (sesion names ids st0 inputs).stFinal.log_eventos,
    lastN_suffix 10 (sesion names ids st0 inputs).stFinal.log_eventos⟩

/-- C8: a frame with exactly two qualifying detections draws the banner with
count 2, draws the two chips stacked with the fixed 50-pixel spacing at
y = 120 and y = 170, increases the cumulative alert count by exactly 2, and
appends the two formatted log lines through the dedup step — in particular
both are appended whenever neither falls inside its 5-entry dedup window. -/
theorem C8_dos_detecciones (names : List (Nat × String)) (ids : List Nat)
    (st : SessionState) (input : FrameInput)
    (st1 : SessionState) (r : RenderInfo) (c : List String)
    (d1 d2 : Detection)
    (hok : procesaFrame names ids st input = Except.ok (st1, r, c))
    (hdets : objetos_detectados names ids (predict input.resultados umbralConf) = [d1, d2]) :
    r.bannerDrawn = true ∧
    r.bannerText = some "ALERTA: 2 OBJETO(S) PELIGROSO(S) DETECTADO(S)" ∧
    r.chips = [(textoChip d1, 120), (textoChip d2, 170)] ∧
    st1.alertas_totales = st.alertas_totales + 2 ∧
    st1.log_eventos =
      registraEvento
        (registraEvento st.log_eventos (formatoEvento input.timestamp d1))
        (formatoEvento input.timestamp d2) ∧
    (formatoEvento input.timestamp d1 ∉ lastN 5 st.log_eventos →
      formatoEvento input.timestamp d2 ∉
        lastN 5 (st.log_eventos ++ [formatoEvento input.timestamp d1]) →
      st1.log_eventos = st.log_eventos ++
        [formatoEvento input.timestamp d1, formatoEvento input.timestamp d2]) := by
  simp only [procesaFrame, hdets] at hok
  split at hok
  · cases hok
  · rw [Except.ok.injEq, Prod.mk.injEq, Prod.mk.injEq] at hok
    obtain ⟨h1, h2, h3⟩ := hok
    subst h1
    subst h2
    have hlog :
        (registraEventosCon st.log_eventos
            [formatoEvento input.timestamp d1, formatoEvento input.timestamp d2]).1 =
          registraEvento
            (registraEvento st.log_eventos (formatoEvento input.timestamp d1))
            (formatoEvento input.timestamp d2) := by
      unfold registraEventosCon
      rw [List.foldl_cons, List.foldl_cons, List.foldl_nil,
        registraEventoCon_fst, registraEventoCon_fst]
    have hlog5 :
        (if ([d1, d2] : List Detection).isEmpty then
            (st.log_eventos, ([] : List String))
          else registraEventosCon st.log_eventos
            (List.map (formatoEvento input.timestamp) [d1, d2])).1 =
          registraEvento
            (registraEvento st.log_eventos (formatoEvento input.timestamp d1))
            (formatoEvento input.timestamp d2) := by
      simpa using hlog
    refine ⟨rfl, ?_, rfl, by simp, hlog5, ?_⟩
    · simp only [renderiza, List.isEmpty_cons, Bool.false_eq_true, if_false,
        List.length_cons, List.length_nil]
      rfl
    · intro hn1 hn2
      have e1eq :
          registraEvento st.log_eventos (formatoEvento input.timestamp d1) =
            st.log_eventos ++ [formatoEvento input.timestamp d1] := if_neg hn1
      have e2eq :
          registraEvento (st.log_eventos ++ [formatoEvento input.timestamp d1])
              (formatoEvento input.timestamp d2) =
            (st.log_eventos ++ [formatoEvento input.timestamp d1]) ++
              [formatoEvento input.timestamp d2] := if_neg hn2
      calc (if ([d1, d2] : List Detection).isEmpty then
              (st.log_eventos, ([] : List String))
            else registraEventosCon st.log_eventos
              (List.map (formatoEvento input.timestamp) [d1, d2])).1
          = registraEvento
              (registraEvento st.log_eventos (formatoEvento input.timestamp d1))
              (formatoEvento input.timestamp d2) := hlog5
        _ = registraEvento
              (st.log_eventos ++ [formatoEvento input.timestamp d1])
              (formatoEvento input.timestamp d2) := by rw [e1eq]
        _ = (st.log_eventos ++ [formatoEvento input.timestamp d1]) ++
              [formatoEvento input.timestamp d2] := e2eq
        _ = st.log_eventos ++
              [formatoEvento input.timestamp d1, formatoEvento input.timestamp d2] := by
            simp

/-- Witness for C8 at the spec's own example: a knife at confidence 0.8 and a
bottle at confidence 0.4 in one frame, from the initial state. -/
theorem C8_dos_detecciones_witness :
    (procesaFrame nombresDos [39, 43] estadoInicial entradaDos =
        Except.ok (estadoDos, renderiza [detCuchillo, detBotella] 2,
          ["🚨 [12:00:00] 🔪 CUCHILLO - Confianza: 80%",
           "🚨 [12:00:00] 🍾 BOTELLA - Confianza: 40%"]) ∧
      objetos_detectados nombresDos [39, 43] (predict entradaDos.resultados umbralConf) =
        [detCuchillo, detBotella]) ∧
    ((renderiza [detCuchillo, detBotella] 2).bannerDrawn = true ∧
      (renderiza [detCuchillo, detBotella] 2).bannerText =
        some "ALERTA: 2 OBJETO(S) PELIGROSO(S) DETECTADO(S)" ∧
      (renderiza [detCuchillo, detBotella] 2).chips =
        [(textoChip detCuchillo, 120), (textoChip detBotella, 170)] ∧
      estadoDos.alertas_totales = estadoInicial.alertas_totales + 2 ∧
      estadoDos.log_eventos =
        registraEvento
          (registraEvento estadoInicial.log_eventos
            (formatoEvento entradaDos.timestamp detCuchillo))
          (formatoEvento entradaDos.timestamp detBotella) ∧
      (formatoEvento entradaDos.timestamp detCuchillo ∉
          lastN 5 estadoInicial.log_eventos →
        formatoEvento entradaDos.timestamp detBotella ∉
          lastN 5 (estadoInicial.log_eventos ++
            [formatoEvento entradaDos.timestamp detCuchillo]) →
        estadoDos.log_eventos = estadoInicial.log_eventos ++
          [formatoEvento entradaDos.timestamp detCuchillo,
           formatoEvento entradaDos.timestamp detBotella])) :=
  ⟨⟨rfl, by decide⟩,
    C8_dos_detecciones nombresDos [39, 43] estadoInicial entradaDos
      estadoDos (renderiza [detCuchillo, detBotella] 2)
      ["🚨 [12:00:00] 🔪 CUCHILLO - Confianza: 80%",
       "🚨 [12:00:00] 🍾 BOTELLA - Confianza: 40%"]
      detCuchillo detBotella rfl (by decide)⟩

/-- C10: at every point of a session (every input trace, hence the state
after every prefix of any session), the cumulative alert counter is at least
the length of the event log: each frame adds the number of qualifying
detections to the counter while appending at most that many log lines, and
reset zeroes both together. -/
theorem C10_alertas_dominan_log (names : List (Nat × String)) (ids : List Nat)
    (inputs : List FrameInput) :
    (runLoop names ids estadoInicial inputs).1.log_eventos.length ≤
      (runLoop names ids estadoInicial inputs).1.alertas_totales :=
  runLoop_inv names ids inputs estadoInicial (Nat.le_refl 0)

end CapVisor
